import Mathlib

/-!
Verification of the D1Driver query-translation layer documented in this
repository. The repository ships only the documentation of the published
package (src/dry.md and src/.vitepress/config.mts, whose second document is
the D1Driver API reference); the implementation itself is not part of the
repository, so the QueryTranslator operations below are modelled from the
specification's section 4.1 and the documented public API of section 6.
-/

namespace D1

/-- Scalar values that may appear in condition and entity maps: the NULL
sentinel, strings (including the sentinel string CURRENT_TIMESTAMP) and
integers. -/
inductive Val where
  | null
  | str (s : String)
  | int (n : Int)
deriving DecidableEq, Repr

/-- An ordered mapping from column names to scalar values; insertion order
determines clause ordering. Used both for condition maps and entity maps. -/
abbrev KVMap := List (String × Val)

/-- Tests whether a value is the stringly-typed sentinel that must be emitted
as the bare SQL keyword CURRENT_TIMESTAMP rather than bound. -/
def Val.isCurrentTimestamp : Val → Bool
  | .str s => s == "CURRENT_TIMESTAMP"
  | _ => false

/-- Tests for the NULL sentinel, which turns a condition into an IS NULL
clause with no bound parameter. -/
def Val.isNull : Val → Bool
  | .null => true
  | _ => false

/-- Joins string fragments with a separator, mirroring how the generated SQL
joins WHERE clauses with AND, SET clauses and column lists with commas. -/
def joinSep (sep : String) : List String → String
  | [] => ""
  | [x] => x
  | x :: y :: ys => x ++ sep ++ joinSep sep (y :: ys)

/-- Modelled from the spec: the per-condition WHERE fragments. A condition
whose value is NULL emits col IS NULL; all other conditions emit col = ?.
The implementation of buildSelect, buildUpdate and buildDelete is absent from
the repository; this follows section 4.1 of the specification. -/
def whereParts (conds : KVMap) : List String :=
  conds.map (fun p => if p.2.isNull then p.1 ++ " IS NULL" else p.1 ++ " = ?")

/-- Modelled from the spec: the condition-derived bound parameters, in
map-iteration order, skipping NULL-valued conditions. -/
def whereParams (conds : KVMap) : List Val :=
  (conds.filter (fun p => !p.2.isNull)).map Prod.snd

/-- Modelled from the spec: the optional WHERE clause. An empty condition map
produces no WHERE clause; otherwise the fragments are joined with AND. -/
def whereSql (conds : KVMap) : String :=
  if conds.isEmpty then "" else " WHERE " ++ joinSep " AND " (whereParts conds)

/-- Modelled from the spec: buildSelect(table, conditions, fields) emits
SELECT fields FROM table, optionally followed by the WHERE clause, and the
condition-derived parameters. -/
def buildSelect (table : String) (conds : KVMap) (fields : String) :
    String × List Val :=
  ("SELECT " ++ fields ++ " FROM " ++ table ++ whereSql conds, whereParams conds)

/-- Modelled from the spec: the column list of an INSERT, in entity-map
insertion order. -/
def insertCols (entity : KVMap) : List String :=
  entity.map Prod.fst

/-- Modelled from the spec: the VALUES fragments of an INSERT; the
CURRENT_TIMESTAMP sentinel is emitted as the bare keyword, every other value
as a question-mark placeholder. -/
def insertVals (entity : KVMap) : List String :=
  entity.map (fun p => if p.2.isCurrentTimestamp then "CURRENT_TIMESTAMP" else "?")

/-- Modelled from the spec: the entity-derived bound parameters, in entity-map
insertion order, excluding CURRENT_TIMESTAMP sentinel values. -/
def entityParams (entity : KVMap) : List Val :=
  (entity.filter (fun p => !p.2.isCurrentTimestamp)).map Prod.snd

/-- Modelled from the spec: buildInsert(table, entity) emits
INSERT INTO table (cols...) VALUES (...) with the CURRENT_TIMESTAMP sentinel
as a raw keyword and all other values as bound parameters. -/
def buildInsert (table : String) (entity : KVMap) : String × List Val :=
  ("INSERT INTO " ++ table ++ " (" ++ joinSep ", " (insertCols entity) ++
     ") VALUES (" ++ joinSep ", " (insertVals entity) ++ ")",
   entityParams entity)

/-- Modelled from the spec: the SET fragments of an UPDATE, one per entity
entry in insertion order, with the same CURRENT_TIMESTAMP handling as
insert. -/
def setParts (entity : KVMap) : List String :=
  entity.map (fun p =>
    if p.2.isCurrentTimestamp then p.1 ++ " = CURRENT_TIMESTAMP" else p.1 ++ " = ?")

/-- Modelled from the spec: buildUpdate(table, entity, conditions) emits
UPDATE table SET col = ?, ... optionally followed by the WHERE clause; params
are the entity values in map order followed by the condition values in map
order, skipping NULLs. -/
def buildUpdate (table : String) (entity : KVMap) (conds : KVMap) :
    String × List Val :=
  ("UPDATE " ++ table ++ " SET " ++ joinSep ", " (setParts entity) ++ whereSql conds,
   entityParams entity ++ whereParams conds)

/-- Modelled from the spec: buildDelete(table, conditions, softRemove) emits
DELETE FROM table when softRemove is false, and
UPDATE table SET deletedAt = CURRENT_TIMESTAMP instead when softRemove is
true, each optionally followed by the WHERE clause. -/
def buildDelete (table : String) (conds : KVMap) (softRemove : Bool) :
    String × List Val :=
  if softRemove then
    ("UPDATE " ++ table ++ " SET deletedAt = CURRENT_TIMESTAMP" ++ whereSql conds,
     whereParams conds)
  else
    ("DELETE FROM " ++ table ++ whereSql conds, whereParams conds)

/-- The result shape of every public operation: a success flag and a sequence
of row maps, which is an empty list (never null or absent) when no rows
match. -/
structure QueryResult where
  success : Bool
  results : List KVMap
deriving DecidableEq, Repr

/-- The injected executor capability: consumes a SQL string and the ordered
bound parameters and produces a query result. -/
abbrev Executor := String → List Val → QueryResult

/-- Modelled from the spec: the public get operation composes buildSelect
with the executor capability and returns the executor's result unchanged. -/
def get (db : Executor) (table : String) (conds : KVMap) (fields : String) :
    QueryResult :=
  db (buildSelect table conds fields).1 (buildSelect table conds fields).2

/-- Modelled from the spec: the public create operation; an empty entity map
is a caller error signaled by a failure result rather than an exception,
otherwise it composes buildInsert with the executor and returns the
executor's result unchanged. -/
def create (db : Executor) (table : String) (entity : KVMap) : QueryResult :=
  if entity.isEmpty then { success := false, results := [] }
  else db (buildInsert table entity).1 (buildInsert table entity).2

/-- Modelled from the spec: the public update operation; an empty entity map
is a caller error signaled by a failure result, otherwise it composes
buildUpdate with the executor and returns the executor's result unchanged. -/
def update (db : Executor) (table : String) (entity : KVMap) (conds : KVMap) :
    QueryResult :=
  if entity.isEmpty then { success := false, results := [] }
  else db (buildUpdate table entity conds).1 (buildUpdate table entity conds).2

/-- Modelled from the spec: the public remove operation composes buildDelete
with the executor and returns the executor's result unchanged. -/
def remove (db : Executor) (table : String) (conds : KVMap) (softRemove : Bool) :
    QueryResult :=
  db (buildDelete table conds softRemove).1 (buildDelete table conds softRemove).2

/-- Counts occurrences of the placeholder character in a string; re-parsing
the generated SQL for placeholders amounts to counting this character. -/
def qcount (s : String) : Nat := s.data.count (Char.ofNat 63)

theorem qcount_append (a b : String) : qcount (a ++ b) = qcount a + qcount b := by
  simp [qcount, String.data_append, List.count_append]

theorem qcount_joinSep (sep : String) (hsep : qcount sep = 0) :
    ∀ l : List String, qcount (joinSep sep l) = (l.map qcount).sum
  | [] => by simp [joinSep, qcount]
  | [x] => by simp [joinSep]
  | x :: y :: ys => by
    have ih := qcount_joinSep sep hsep (y :: ys)
    simp only [joinSep, List.map_cons, List.sum_cons] at ih ⊢
    rw [qcount_append, qcount_append, hsep, ih]
    omega

theorem whereParts_cons (p : String × Val) (l : KVMap) :
    whereParts (p :: l) =
      (if p.2.isNull then p.1 ++ " IS NULL" else p.1 ++ " = ?") :: whereParts l := rfl

theorem whereParams_cons (p : String × Val) (l : KVMap) :
    whereParams (p :: l) =
      if p.2.isNull then whereParams l else p.2 :: whereParams l := by
  by_cases hn : p.2.isNull <;> simp [whereParams, List.filter_cons, hn]

theorem sum_whereParts (conds : KVMap) (hc : ∀ p ∈ conds, qcount p.1 = 0) :
    ((whereParts conds).map qcount).sum = (whereParams conds).length := by
  induction conds with
  | nil => simp [whereParts, whereParams]
  | cons p l ih =>
    have hp : qcount p.1 = 0 := hc p (by simp)
    have hl : ∀ q ∈ l, qcount q.1 = 0 := fun q hq => hc q (by simp [hq])
    rw [whereParts_cons, whereParams_cons]
    by_cases hn : p.2.isNull <;>
      simp [hn, List.map_cons, List.sum_cons,
        List.length_cons, qcount_append, hp, ih hl,
        show qcount " IS NULL" = 0 from rfl, show qcount " = ?" = 1 from rfl] <;>
      omega

theorem qcount_whereSql (conds : KVMap) (hc : ∀ p ∈ conds, qcount p.1 = 0) :
    qcount (whereSql conds) = (whereParams conds).length := by
  cases conds with
  | nil => simp [whereSql, whereParams, qcount]
  | cons p l =>
    rw [whereSql]
    simp only [List.isEmpty_cons, Bool.false_eq_true, if_false]
    rw [qcount_append, qcount_joinSep " AND " rfl, sum_whereParts _ hc,
      show qcount " WHERE " = 0 from rfl]
    omega

theorem entityParams_cons (p : String × Val) (l : KVMap) :
    entityParams (p :: l) =
      if p.2.isCurrentTimestamp then entityParams l else p.2 :: entityParams l := by
  by_cases hct : p.2.isCurrentTimestamp <;>
    simp [entityParams, List.filter_cons, hct]

theorem sum_insertCols (entity : KVMap) (he : ∀ p ∈ entity, qcount p.1 = 0) :
    ((insertCols entity).map qcount).sum = 0 := by
  induction entity with
  | nil => simp [insertCols]
  | cons p l ih =>
    have hp : qcount p.1 = 0 := he p (by simp)
    have hl : ∀ q ∈ l, qcount q.1 = 0 := fun q hq => he q (by simp [hq])
    rw [show insertCols (p :: l) = p.1 :: insertCols l from rfl]
    simp only [List.map_cons, List.sum_cons, hp, ih hl]

theorem sum_insertVals (entity : KVMap) :
    ((insertVals entity).map qcount).sum = (entityParams entity).length := by
  induction entity with
  | nil => simp [insertVals, entityParams]
  | cons p l ih =>
    rw [show insertVals (p :: l) =
      (if p.2.isCurrentTimestamp then "CURRENT_TIMESTAMP" else "?") :: insertVals l
      from rfl, entityParams_cons]
    by_cases hct : p.2.isCurrentTimestamp <;>
      simp [hct, List.map_cons, List.sum_cons,
        List.length_cons, ih, show qcount "CURRENT_TIMESTAMP" = 0 from rfl,
        show qcount "?" = 1 from rfl] <;>
      omega

theorem sum_setParts (entity : KVMap) (he : ∀ p ∈ entity, qcount p.1 = 0) :
    ((setParts entity).map qcount).sum = (entityParams entity).length := by
  induction entity with
  | nil => simp [setParts, entityParams]
  | cons p l ih =>
    have hp : qcount p.1 = 0 := he p (by simp)
    have hl : ∀ q ∈ l, qcount q.1 = 0 := fun q hq => he q (by simp [hq])
    rw [show setParts (p :: l) =
      (if p.2.isCurrentTimestamp then p.1 ++ " = CURRENT_TIMESTAMP"
        else p.1 ++ " = ?") :: setParts l from rfl, entityParams_cons]
    by_cases hct : p.2.isCurrentTimestamp <;>
      simp [hct, List.map_cons, List.sum_cons,
        List.length_cons, qcount_append, hp, ih hl,
        show qcount " = CURRENT_TIMESTAMP" = 0 from rfl,
        show qcount " = ?" = 1 from rfl] <;>
      omega

/-- Claim C1: a condition entry whose value is NULL emits col IS NULL in the
WHERE clause of buildSelect, buildUpdate and buildDelete and contributes no
bound parameter, while every non-NULL condition entry emits col = ? and
appends its value to params in map-iteration order; the condition-derived
params of all three operations are exactly the non-NULL condition values in
order. -/
theorem c1_null_conditions (table fields : String) (entity conds : KVMap)
    (c : String) (v : Val) (h : (c, v) ∈ conds) :
    (if v.isNull then c ++ " IS NULL" else c ++ " = ?") ∈ whereParts conds ∧
    whereParams conds = (conds.filter (fun p => !p.2.isNull)).map Prod.snd ∧
    (buildSelect table conds fields).2 = whereParams conds ∧
    (buildUpdate table entity conds).2 = entityParams entity ++ whereParams conds ∧
    (buildDelete table conds false).2 = whereParams conds ∧
    (buildDelete table conds true).2 = whereParams conds := by
  refine ⟨?_, rfl, rfl, rfl, rfl, rfl⟩
  exact List.mem_map.mpr ⟨(c, v), h, rfl⟩

/-- Claim C1, witness at a concrete input: the condition map with a NULL
status and a concrete id yields IS NULL for status, = ? for id, and a single
bound parameter. -/
theorem c1_null_conditions_witness :
    ("status" ++ " IS NULL") ∈ whereParts [("status", Val.null), ("id", Val.int 7)] ∧
    whereParams [("status", Val.null), ("id", Val.int 7)] =
      (([("status", Val.null), ("id", Val.int 7)] : KVMap).filter
        (fun p => !p.2.isNull)).map Prod.snd ∧
    (buildSelect "t" [("status", Val.null), ("id", Val.int 7)] "*").2 =
      whereParams [("status", Val.null), ("id", Val.int 7)] ∧
    (buildUpdate "t" [("a", Val.int 1)] [("status", Val.null), ("id", Val.int 7)]).2 =
      entityParams [("a", Val.int 1)] ++ whereParams [("status", Val.null), ("id", Val.int 7)] ∧
    (buildDelete "t" [("status", Val.null), ("id", Val.int 7)] false).2 =
      whereParams [("status", Val.null), ("id", Val.int 7)] ∧
    (buildDelete "t" [("status", Val.null), ("id", Val.int 7)] true).2 =
      whereParams [("status", Val.null), ("id", Val.int 7)] := by
  have h := c1_null_conditions "t" "*" [("a", Val.int 1)]
    [("status", Val.null), ("id", Val.int 7)] "status" Val.null (by simp)
  simpa [Val.isNull] using h

/-- Claim C2: an entity value equal to the sentinel string CURRENT_TIMESTAMP
is emitted as the bare keyword at that column's position in buildInsert's
VALUES list and buildUpdate's SET list and is excluded from params, while all
other entity values become bound question-mark placeholders; in particular
buildInsert("blog", (title: x, createdAt: CURRENT_TIMESTAMP)) yields column
list (title, createdAt), values (?, CURRENT_TIMESTAMP) and params (x). -/
theorem c2_current_timestamp (table : String) (entity : KVMap)
    (i : Nat) (c : String) (v : Val) (h : entity[i]? = some (c, v)) :
    (insertVals entity)[i]? =
      some (if v.isCurrentTimestamp then "CURRENT_TIMESTAMP" else "?") ∧
    (setParts entity)[i]? =
      some (if v.isCurrentTimestamp then c ++ " = CURRENT_TIMESTAMP" else c ++ " = ?") ∧
    (buildInsert table entity).2 =
      (entity.filter (fun p => !p.2.isCurrentTimestamp)).map Prod.snd ∧
    (buildUpdate table entity []).2 =
      (entity.filter (fun p => !p.2.isCurrentTimestamp)).map Prod.snd ∧
    buildInsert "blog" [("title", Val.str "x"), ("createdAt", Val.str "CURRENT_TIMESTAMP")] =
      ("INSERT INTO blog (title, createdAt) VALUES (?, CURRENT_TIMESTAMP)",
       [Val.str "x"]) := by
  refine ⟨?_, ?_, rfl, by simp [buildUpdate, entityParams, whereParams, whereSql], ?_⟩
  · simp [insertVals, h]
  · simp [setParts, h]
  · simp [buildInsert, insertCols, insertVals, entityParams, joinSep,
      Val.isCurrentTimestamp]

/-- Claim C2, witness at a concrete input: the createdAt sentinel in position
one of the example entity is emitted as the keyword and skipped in params. -/
theorem c2_current_timestamp_witness :
    (insertVals [("title", Val.str "x"), ("createdAt", Val.str "CURRENT_TIMESTAMP")])[1]? =
      some (if (Val.str "CURRENT_TIMESTAMP").isCurrentTimestamp then
        "CURRENT_TIMESTAMP" else "?") ∧
    (setParts [("title", Val.str "x"), ("createdAt", Val.str "CURRENT_TIMESTAMP")])[1]? =
      some (if (Val.str "CURRENT_TIMESTAMP").isCurrentTimestamp then
        "createdAt" ++ " = CURRENT_TIMESTAMP" else "createdAt" ++ " = ?") ∧
    (buildInsert "blog" [("title", Val.str "x"), ("createdAt", Val.str "CURRENT_TIMESTAMP")]).2 =
      (([("title", Val.str "x"), ("createdAt", Val.str "CURRENT_TIMESTAMP")] : KVMap).filter
        (fun p => !p.2.isCurrentTimestamp)).map Prod.snd ∧
    (buildUpdate "blog" [("title", Val.str "x"), ("createdAt", Val.str "CURRENT_TIMESTAMP")] []).2 =
      (([("title", Val.str "x"), ("createdAt", Val.str "CURRENT_TIMESTAMP")] : KVMap).filter
        (fun p => !p.2.isCurrentTimestamp)).map Prod.snd ∧
    buildInsert "blog" [("title", Val.str "x"), ("createdAt", Val.str "CURRENT_TIMESTAMP")] =
      ("INSERT INTO blog (title, createdAt) VALUES (?, CURRENT_TIMESTAMP)",
       [Val.str "x"]) :=
  c2_current_timestamp "blog"
    [("title", Val.str "x"), ("createdAt", Val.str "CURRENT_TIMESTAMP")]
    1 "createdAt" (Val.str "CURRENT_TIMESTAMP") rfl

/-- Claim C3: buildDelete with softRemove false emits a DELETE FROM table
statement; with softRemove true it emits instead an UPDATE table SET
deletedAt = CURRENT_TIMESTAMP statement; in particular
buildDelete("t", (id, 5), true) produces an UPDATE statement setting
deletedAt with the id bound as a parameter. -/
theorem c3_soft_delete (table : String) (conds : KVMap) :
    (buildDelete table conds false).1 = "DELETE FROM " ++ table ++ whereSql conds ∧
    (buildDelete table conds true).1 =
      "UPDATE " ++ table ++ " SET deletedAt = CURRENT_TIMESTAMP" ++ whereSql conds ∧
    buildDelete "t" [("id", Val.int 5)] true =
      ("UPDATE t SET deletedAt = CURRENT_TIMESTAMP WHERE id = ?", [Val.int 5]) := by
  refine ⟨rfl, rfl, ?_⟩
  simp [buildDelete, whereSql, whereParts, whereParams, joinSep, Val.isNull]

/-- Claim C4: an empty condition map produces a statement with no WHERE
clause and no condition-derived parameters in buildSelect, buildUpdate and
buildDelete; in particular buildSelect("t", empty, "*") is exactly
SELECT * FROM t with an empty parameter list. -/
theorem c4_empty_conditions (table fields : String) (entity : KVMap) :
    buildSelect table [] fields = ("SELECT " ++ fields ++ " FROM " ++ table, []) ∧
    buildUpdate table entity [] =
      ("UPDATE " ++ table ++ " SET " ++ joinSep ", " (setParts entity),
       entityParams entity) ∧
    buildDelete table [] false = ("DELETE FROM " ++ table, []) ∧
    buildDelete table [] true =
      ("UPDATE " ++ table ++ " SET deletedAt = CURRENT_TIMESTAMP", []) ∧
    buildSelect "t" [] "*" = ("SELECT * FROM t", []) := by
  refine ⟨?_, ?_, ?_, ?_, ?_⟩ <;>
    simp [buildSelect, buildUpdate, buildDelete, whereSql, whereParams]

/-- Claim C5: calling the public create or update operation with an empty
entity map returns a failure result with success set to false (a uniform
result shape) rather than throwing an exception. -/
theorem c5_empty_entity (db : Executor) (table : String) (conds : KVMap) :
    create db table [] = { success := false, results := [] } ∧
    update db table [] conds = { success := false, results := [] } ∧
    (create db table []).success = false ∧
    (update db table [] conds).success = false := by
  exact ⟨rfl, rfl, rfl, rfl⟩

/-- Claim C7: the params of buildUpdate are exactly the entity values in
entity-map insertion order, excluding CURRENT_TIMESTAMP sentinel values,
followed by the condition values in condition-map insertion order with
NULL-valued conditions skipped; the SET and WHERE fragments follow the maps'
insertion order with no reordering. -/
theorem c7_update_param_order (table : String) (entity conds : KVMap) :
    (buildUpdate table entity conds).2 =
      (entity.filter (fun p => !p.2.isCurrentTimestamp)).map Prod.snd ++
        (conds.filter (fun p => !p.2.isNull)).map Prod.snd ∧
    (buildUpdate table entity conds).1 =
      "UPDATE " ++ table ++ " SET " ++
        joinSep ", " (entity.map (fun p =>
          if p.2.isCurrentTimestamp then p.1 ++ " = CURRENT_TIMESTAMP"
          else p.1 ++ " = ?")) ++ whereSql conds ∧
    whereParts conds = conds.map (fun p =>
      if p.2.isNull then p.1 ++ " IS NULL" else p.1 ++ " = ?") ∧
    setParts entity = entity.map (fun p =>
      if p.2.isCurrentTimestamp then p.1 ++ " = CURRENT_TIMESTAMP"
      else p.1 ++ " = ?") := by
  exact ⟨rfl, rfl, rfl, rfl⟩

/-- Claim C8: each public operation returns the executor's result unchanged
(create and update for a non-empty entity), and the results field is a
sequence holding exactly what the executor produced: when the executor
reports no matching rows the operation's results field is the empty
sequence, never a null or absent value. -/
theorem c8_passthrough (db : Executor) (table fields : String)
    (conds entity : KVMap) (softRemove : Bool) (he : entity ≠ []) :
    get db table conds fields =
      db (buildSelect table conds fields).1 (buildSelect table conds fields).2 ∧
    create db table entity =
      db (buildInsert table entity).1 (buildInsert table entity).2 ∧
    update db table entity conds =
      db (buildUpdate table entity conds).1 (buildUpdate table entity conds).2 ∧
    remove db table conds softRemove =
      db (buildDelete table conds softRemove).1 (buildDelete table conds softRemove).2 ∧
    ((db (buildSelect table conds fields).1 (buildSelect table conds fields).2).results = [] →
      (get db table conds fields).results = []) := by
  refine ⟨rfl, ?_, ?_, rfl, fun h => h⟩
  · simp [create, List.isEmpty_iff, he]
  · simp [update, List.isEmpty_iff, he]

/-- Claim C8, witness at a concrete input: with an executor answering every
query with a successful empty result, all four public operations return that
result unchanged and the results field is the empty sequence. -/
theorem c8_passthrough_witness :
    get (fun _ _ => ⟨true, []⟩) "t" [("id", Val.int 1)] "*" =
      (fun (_ : String) (_ : List Val) => (⟨true, []⟩ : QueryResult))
        (buildSelect "t" [("id", Val.int 1)] "*").1
        (buildSelect "t" [("id", Val.int 1)] "*").2 ∧
    create (fun _ _ => ⟨true, []⟩) "t" [("a", Val.int 2)] =
      (fun (_ : String) (_ : List Val) => (⟨true, []⟩ : QueryResult))
        (buildInsert "t" [("a", Val.int 2)]).1
        (buildInsert "t" [("a", Val.int 2)]).2 ∧
    update (fun _ _ => ⟨true, []⟩) "t" [("a", Val.int 2)] [("id", Val.int 1)] =
      (fun (_ : String) (_ : List Val) => (⟨true, []⟩ : QueryResult))
        (buildUpdate "t" [("a", Val.int 2)] [("id", Val.int 1)]).1
        (buildUpdate "t" [("a", Val.int 2)] [("id", Val.int 1)]).2 ∧
    remove (fun _ _ => ⟨true, []⟩) "t" [("id", Val.int 1)] false =
      (fun (_ : String) (_ : List Val) => (⟨true, []⟩ : QueryResult))
        (buildDelete "t" [("id", Val.int 1)] false).1
        (buildDelete "t" [("id", Val.int 1)] false).2 ∧
    (((fun (_ : String) (_ : List Val) => (⟨true, []⟩ : QueryResult))
        (buildSelect "t" [("id", Val.int 1)] "*").1
        (buildSelect "t" [("id", Val.int 1)] "*").2).results = [] →
      (get (fun _ _ => ⟨true, []⟩) "t" [("id", Val.int 1)] "*").results = []) :=
  c8_passthrough (fun _ _ => ⟨true, []⟩) "t" "*" [("id", Val.int 1)]
    [("a", Val.int 2)] false (by simp)

/-- Claim C9: every QueryTranslator operation is a pure, stateless function;
any two invocations with identical inputs return identical pairs of SQL and
parameters, independent of any prior invocation or shared state. -/
theorem c9_purity (t u f g : String) (a b d e : KVMap) (r s : Bool)
    (ht : t = u) (hf : f = g) (ha : a = b) (hd : d = e) (hr : r = s) :
    buildSelect t a f = buildSelect u b g ∧
    buildInsert t d = buildInsert u e ∧
    buildUpdate t d a = buildUpdate u e b ∧
    buildDelete t a r = buildDelete u b s := by
  subst ht hf ha hd hr
  exact ⟨rfl, rfl, rfl, rfl⟩

/-- Claim C9, witness at a concrete input: two syntactically separate
invocations on equal concrete inputs coincide for all four operations. -/
theorem c9_purity_witness :
    buildSelect "t" [("id", Val.int 1)] "*" = buildSelect "t" [("id", Val.int 1)] "*" ∧
    buildInsert "t" [("a", Val.int 2)] = buildInsert "t" [("a", Val.int 2)] ∧
    buildUpdate "t" [("a", Val.int 2)] [("id", Val.int 1)] =
      buildUpdate "t" [("a", Val.int 2)] [("id", Val.int 1)] ∧
    buildDelete "t" [("id", Val.int 1)] true = buildDelete "t" [("id", Val.int 1)] true :=
  c9_purity "t" "t" "*" "*" [("id", Val.int 1)] [("id", Val.int 1)]
    [("a", Val.int 2)] [("a", Val.int 2)] true true rfl rfl rfl rfl rfl

/-- Claim C10, counterexample: an executor may report success with an empty
results sequence, and create returns that result unchanged, so a successful
create call does not guarantee a non-empty results sequence whose first
element is the created record. -/
theorem c10_counterexample :
    (create (fun _ _ => ⟨true, []⟩) "blog" [("title", Val.str "x")]).success = true ∧
    (create (fun _ _ => ⟨true, []⟩) "blog" [("title", Val.str "x")]).results = [] := by
  exact ⟨rfl, rfl⟩

/-- Claim C10 as amended: create returns the executor's result unchanged for
a non-empty entity; whenever the executor's answer to the generated INSERT is
a success whose results sequence starts with the created record, the create
call succeeds and the head of its results is that record, so shifting the
results yields the created record. The generated INSERT itself contains no
clause asking the store to return the row, so non-emptiness is the
executor's responsibility, not the translator's. -/
theorem c10_amended (db : Executor) (table : String) (entity : KVMap)
    (he : entity ≠ []) (r : KVMap) (rs : List KVMap)
    (hdb : db (buildInsert table entity).1 (buildInsert table entity).2 =
      { success := true, results := r :: rs }) :
    (create db table entity).success = true ∧
    (create db table entity).results ≠ [] ∧
    (create db table entity).results.head? = some r := by
  have hc : create db table entity = { success := true, results := r :: rs } := by
    simp [create, List.isEmpty_iff, he, hdb]
  simp [hc]

/-- Claim C10 as amended, witness at a concrete input: an executor returning
the created row makes create succeed with that row first. -/
theorem c10_amended_witness :
    (create (fun _ _ => ⟨true, [[("title", Val.str "x")]]⟩) "blog"
      [("title", Val.str "x")]).success = true ∧
    (create (fun _ _ => ⟨true, [[("title", Val.str "x")]]⟩) "blog"
      [("title", Val.str "x")]).results ≠ [] ∧
    (create (fun _ _ => ⟨true, [[("title", Val.str "x")]]⟩) "blog"
      [("title", Val.str "x")]).results.head? = some [("title", Val.str "x")] :=
  c10_amended (fun _ _ => ⟨true, [[("title", Val.str "x")]]⟩) "blog"
    [("title", Val.str "x")] (by simp) [("title", Val.str "x")] [] rfl

/-- Claim C6, counterexample: the claim quantifies over every table, but
table and column identifiers are caller-trusted and interpolated raw, so a
table name containing the placeholder character itself defeats the count: at
table a?, one condition and one bound parameter, the generated SQL holds two
placeholder characters while params has length one. -/
theorem c6_counterexample :
    ¬ (qcount (buildSelect "a?" [("x", Val.int 1)] "*").1 =
        (buildSelect "a?" [("x", Val.int 1)] "*").2.length) := by
  intro h
  rw [show qcount (buildSelect "a?" [("x", Val.int 1)] "*").1 = 2 from rfl,
    show (buildSelect "a?" [("x", Val.int 1)] "*").2.length = 1 from rfl] at h
  exact absurd h (by decide)

/-- Claim C6 as amended: for every table, projection string and column names
containing no placeholder character, and arbitrary condition and entity maps
containing no NULL values, each of buildSelect, buildInsert, buildUpdate and
buildDelete returns a pair of SQL and params in which the number of
placeholder characters occurring in the SQL equals the length of params. -/
theorem c6_placeholder_count (table fields : String) (conds entity : KVMap)
    (ht : qcount table = 0) (hf : qcount fields = 0)
    (hc : ∀ p ∈ conds, qcount p.1 = 0 ∧ p.2 ≠ Val.null)
    (he : ∀ p ∈ entity, qcount p.1 = 0 ∧ p.2 ≠ Val.null) :
    qcount (buildSelect table conds fields).1 =
      (buildSelect table conds fields).2.length ∧
    qcount (buildInsert table entity).1 = (buildInsert table entity).2.length ∧
    qcount (buildUpdate table entity conds).1 =
      (buildUpdate table entity conds).2.length ∧
    qcount (buildDelete table conds false).1 =
      (buildDelete table conds false).2.length ∧
    qcount (buildDelete table conds true).1 =
      (buildDelete table conds true).2.length := by
  have hc1 : ∀ p ∈ conds, qcount p.1 = 0 := fun p hp => (hc p hp).1
  have he1 : ∀ p ∈ entity, qcount p.1 = 0 := fun p hp => (he p hp).1
  have hW := qcount_whereSql conds hc1
  refine ⟨?_, ?_, ?_, ?_, ?_⟩
  · simp [buildSelect, qcount_append, hW, hf, ht,
      show qcount "SELECT " = 0 from rfl, show qcount " FROM " = 0 from rfl]
  · simp [buildInsert, qcount_append, ht, qcount_joinSep ", " rfl,
      sum_insertCols entity he1, sum_insertVals entity,
      show qcount "INSERT INTO " = 0 from rfl, show qcount " (" = 0 from rfl,
      show qcount ") VALUES (" = 0 from rfl, show qcount ")" = 0 from rfl]
  · simp [buildUpdate, qcount_append, ht, hW, qcount_joinSep ", " rfl,
      sum_setParts entity he1, List.length_append,
      show qcount "UPDATE " = 0 from rfl, show qcount " SET " = 0 from rfl]
  · simp [buildDelete, qcount_append, ht, hW,
      show qcount "DELETE FROM " = 0 from rfl]
  · simp [buildDelete, qcount_append, ht, hW,
      show qcount "UPDATE " = 0 from rfl,
      show qcount " SET deletedAt = CURRENT_TIMESTAMP" = 0 from rfl]

/-- Claim C6 as amended, witness at a concrete input: placeholder-free
identifiers and NULL-free maps make the placeholder count match the params
length for all four operations. -/
theorem c6_placeholder_count_witness :
    qcount (buildSelect "t" [("id", Val.int 1), ("flag", Val.str "y")] "id, title").1 =
      (buildSelect "t" [("id", Val.int 1), ("flag", Val.str "y")] "id, title").2.length ∧
    qcount (buildInsert "t"
        [("a", Val.str "x"), ("createdAt", Val.str "CURRENT_TIMESTAMP")]).1 =
      (buildInsert "t"
        [("a", Val.str "x"), ("createdAt", Val.str "CURRENT_TIMESTAMP")]).2.length ∧
    qcount (buildUpdate "t"
        [("a", Val.str "x"), ("createdAt", Val.str "CURRENT_TIMESTAMP")]
        [("id", Val.int 1), ("flag", Val.str "y")]).1 =
      (buildUpdate "t"
        [("a", Val.str "x"), ("createdAt", Val.str "CURRENT_TIMESTAMP")]
        [("id", Val.int 1), ("flag", Val.str "y")]).2.length ∧
    qcount (buildDelete "t" [("id", Val.int 1), ("flag", Val.str "y")] false).1 =
      (buildDelete "t" [("id", Val.int 1), ("flag", Val.str "y")] false).2.length ∧
    qcount (buildDelete "t" [("id", Val.int 1), ("flag", Val.str "y")] true).1 =
      (buildDelete "t" [("id", Val.int 1), ("flag", Val.str "y")] true).2.length :=
  c6_placeholder_count "t" "id, title"
    [("id", Val.int 1), ("flag", Val.str "y")]
    [("a", Val.str "x"), ("createdAt", Val.str "CURRENT_TIMESTAMP")]
    (by decide) (by decide) (by decide) (by decide)

end D1
